import Mathlib

/-!
Shallow embedding of the CropSense forecast service
(`services/gemini-ai.js`): the JSON normalization pipeline
(`cleanJsonResponse`, `JSON.parse`, `validateForecastData`,
`formatForecastResponse`), the mock forecast generator
(`generateMockForecast`), the market heatmap generator
(`generateMarketHeatmap`), the volatility classifier
(`calculateVolatility`) and the orchestrator (`generateForecast`).

Modelling conventions:
* JS numbers are embedded as `ℚ` (exact rational arithmetic); the only
  place the code takes a square root (`calculateVolatility`) moves to `ℝ`.
* `Math.random()` and `Math.sin` are impure/transcendental builtins; they
  are embedded as explicit function parameters (one indexed family per
  call site), so every theorem quantifies over all possible values.
* `Date` values are embedded as integer day numbers; `today + 7 days`
  becomes `today + 7`.  Rendering a date to an ISO string is injective,
  so the day number represents the rendered field faithfully.
* Template strings built only for presentation (`actionSummary`,
  `recommendations`) are embedded as structured values carrying the data
  that the source interpolates into the template.
-/

namespace CropSense

/-- Parsed JSON values, the result type of the `JSON.parse` model. -/
inductive JsonVal where
  | null : JsonVal
  | bool (b : Bool) : JsonVal
  | num (q : ℚ) : JsonVal
  | str (s : String) : JsonVal
  | arr (elems : List JsonVal) : JsonVal
  | obj (fields : List (String × JsonVal)) : JsonVal

/-- Whitespace recognized by the JSON grammar (RFC 8259). -/
def isJsonWs (c : Char) : Bool :=
  c = ' ' || c = '\t' || c = '\n' || c = '\r'

/-- Whitespace class used by JS `String.prototype.trim` and the `\s`
regex class (principal code points). -/
def isJsWs (c : Char) : Bool :=
  c = ' ' || c = '\t' || c = '\n' || c = '\r' || c = '\x0b' || c = '\x0c'
    || c = ' ' || c = '﻿'

/-- Drop leading JSON whitespace. -/
def skipWs (s : List Char) : List Char :=
  s.dropWhile isJsonWs

/-- Hexadecimal digit value, for string escapes. -/
def hexVal (c : Char) : Option Nat :=
  if '0' ≤ c ∧ c ≤ '9' then some (c.toNat - '0'.toNat)
  else if 'a' ≤ c ∧ c ≤ 'f' then some (c.toNat - 'a'.toNat + 10)
  else if 'A' ≤ c ∧ c ≤ 'F' then some (c.toNat - 'A'.toNat + 10)
  else none

/-- Translation of a single-character JSON string escape. -/
def escChar (c : Char) : Option Char :=
  if c = '"' then some '"'
  else if c = '\\' then some '\\'
  else if c = '/' then some '/'
  else if c = 'b' then some '\x08'
  else if c = 'f' then some '\x0c'
  else if c = 'n' then some '\n'
  else if c = 'r' then some '\r'
  else if c = 't' then some '\t'
  else none

/-- Parse the body of a JSON string literal (the opening quote already
consumed), returning the decoded characters and the rest of the input. -/
def parseStringBody : Nat → List Char → Except String (List Char × List Char)
  | 0, _ => .error "string: out of fuel"
  | _, [] => .error "unterminated string"
  | fuel + 1, c :: rest =>
    if c = '"' then .ok ([], rest)
    else if c = '\\' then
      match rest with
      | [] => .error "unterminated escape"
      | e :: rest2 =>
        if e = 'u' then
          match rest2 with
          | a :: b :: c2 :: d :: rest3 =>
            match hexVal a, hexVal b, hexVal c2, hexVal d with
            | some ha, some hb, some hc, some hd =>
              match parseStringBody fuel rest3 with
              | .ok (s, r) =>
                .ok (Char.ofNat (((ha * 16 + hb) * 16 + hc) * 16 + hd) :: s, r)
              | .error msg => .error msg
            | _, _, _, _ => .error "bad unicode escape"
          | _ => .error "bad unicode escape"
        else
          match escChar e with
          | some ec =>
            match parseStringBody fuel rest2 with
            | .ok (s, r) => .ok (ec :: s, r)
            | .error msg => .error msg
          | none => .error "bad escape"
    else
      match parseStringBody fuel rest with
      | .ok (s, r) => .ok (c :: s, r)
      | .error msg => .error msg

/-- Digit value of a character, if it is a decimal digit. -/
def digitVal (c : Char) : Option Nat :=
  if '0' ≤ c ∧ c ≤ '9' then some (c.toNat - '0'.toNat) else none

/-- Split a run of leading decimal digits from the input. -/
def takeDigits : List Char → (List Nat × List Char)
  | [] => ([], [])
  | c :: rest =>
    match digitVal c with
    | some d =>
      let (ds, r) := takeDigits rest
      (d :: ds, r)
    | none => ([], c :: rest)

/-- Numeric value of a digit list read most-significant first. -/
def digitsToNat (ds : List Nat) : Nat :=
  ds.foldl (fun acc d => acc * 10 + d) 0

/-- Parse a JSON number (sign, integer part with no leading zeros,
optional fraction, optional exponent); the value is assembled as an
exact rational `mantissa / 10^scale`. -/
def parseNumber (s : List Char) : Except String (ℚ × List Char) :=
  let (neg, s1) :=
    match s with
    | '-' :: rest => (true, rest)
    | _ => (false, s)
  match takeDigits s1 with
  | ([], _) => .error "expected number"
  | (intDigits, s2) =>
    if intDigits.length > 1 ∧ intDigits.headI = 0 then
      .error "leading zero in number"
    else
      let fracPart : Option (List Nat × List Char) :=
        match s2 with
        | '.' :: rest =>
          match takeDigits rest with
          | ([], _) => none
          | (fracDigits, r) => some (fracDigits, r)
        | _ => some ([], s2)
      match fracPart with
      | none => .error "expected fraction digits"
      | some (fracDigits, s3) =>
        let expPart : Option (Bool × List Nat × List Char) :=
          match s3 with
          | 'e' :: rest | 'E' :: rest =>
            let (expNeg, rest2) :=
              match rest with
              | '+' :: r => (false, r)
              | '-' :: r => (true, r)
              | _ => (false, rest)
            match takeDigits rest2 with
            | ([], _) => none
            | (expDigits, r) => some (expNeg, expDigits, r)
          | _ => some (false, [], s3)
        match expPart with
        | none => .error "expected exponent digits"
        | some (expNeg, expDigits, s4) =>
          let m : Nat :=
            digitsToNat intDigits * 10 ^ fracDigits.length + digitsToNat fracDigits
          let num : Int := if neg then -(m : Int) else (m : Int)
          let e : Nat := digitsToNat expDigits
          let q : ℚ :=
            if expNeg then mkRat num (10 ^ fracDigits.length * 10 ^ e)
            else mkRat (num * ((10 ^ e : Nat) : Int)) (10 ^ fracDigits.length)
          .ok (q, s4)

mutual

/-- Parse one JSON value from the input (fuel-based recursion; callers
supply fuel exceeding the input length so that well-formed inputs never
exhaust it). -/
def parseVal : Nat → List Char → Except String (JsonVal × List Char)
  | 0, _ => .error "out of fuel"
  | fuel + 1, s =>
    match skipWs s with
    | [] => .error "unexpected end of input"
    | c :: rest =>
      if c = '"' then
        match parseStringBody (rest.length + 1) rest with
        | .ok (cs, r) => .ok (.str (String.mk cs), r)
        | .error msg => .error msg
      else if c = '[' then parseElems fuel rest true
      else if c = '{' then parseMembers fuel rest true
      else if List.isPrefixOf ['n', 'u', 'l', 'l'] (c :: rest) then
        .ok (.null, (c :: rest).drop 4)
      else if List.isPrefixOf ['t', 'r', 'u', 'e'] (c :: rest) then
        .ok (.bool true, (c :: rest).drop 4)
      else if List.isPrefixOf ['f', 'a', 'l', 's', 'e'] (c :: rest) then
        .ok (.bool false, (c :: rest).drop 5)
      else
        match parseNumber (c :: rest) with
        | .ok (q, r) => .ok (.num q, r)
        | .error msg => .error msg

/-- Parse the elements of a JSON array (the opening bracket already
consumed); `first` is true before any element has been read. -/
def parseElems : Nat → List Char → Bool → Except String (JsonVal × List Char)
  | 0, _, _ => .error "out of fuel"
  | fuel + 1, s, first =>
    match skipWs s with
    | ']' :: rest =>
      if first then .ok (.arr [], rest) else .error "trailing comma"
    | s' =>
      match parseVal fuel s' with
      | .error msg => .error msg
      | .ok (v, r) =>
        match skipWs r with
        | ',' :: r2 =>
          match parseElems fuel r2 false with
          | .ok (.arr vs, r3) => .ok (.arr (v :: vs), r3)
          | .ok _ => .error "array: impossible"
          | .error msg => .error msg
        | ']' :: r2 => .ok (.arr [v], r2)
        | _ => .error "expected comma or closing bracket"

/-- Parse the members of a JSON object (the opening brace already
consumed); `first` is true before any member has been read. -/
def parseMembers : Nat → List Char → Bool → Except String (JsonVal × List Char)
  | 0, _, _ => .error "out of fuel"
  | fuel + 1, s, first =>
    match skipWs s with
    | '}' :: rest =>
      if first then .ok (.obj [], rest) else .error "trailing comma"
    | '"' :: rest =>
      match parseStringBody (rest.length + 1) rest with
      | .error msg => .error msg
      | .ok (key, r) =>
        match skipWs r with
        | ':' :: r2 =>
          match parseVal fuel r2 with
          | .error msg => .error msg
          | .ok (v, r3) =>
            match skipWs r3 with
            | ',' :: r4 =>
              match parseMembers fuel r4 false with
              | .ok (.obj ms, r5) => .ok (.obj ((String.mk key, v) :: ms), r5)
              | .ok _ => .error "object: impossible"
              | .error msg => .error msg
            | '}' :: r4 => .ok (.obj [(String.mk key, v)], r4)
            | _ => .error "expected comma or closing brace"
        | _ => .error "expected colon"
    | _ => .error "expected key or closing brace"

end

/-- Model of `JSON.parse`: parse one value surrounded by optional
whitespace; trailing non-whitespace is an error. -/
def jsonParse (s : String) : Except String JsonVal :=
  match parseVal (2 * s.data.length + 2) s.data with
  | .error msg => .error msg
  | .ok (v, rest) =>
    if (skipWs rest).isEmpty then .ok v
    else .error "unexpected trailing characters"

/-- JS property access `data[k]` on a parsed JSON value: `none` models
`undefined`.  A duplicate key keeps the last occurrence, as `JSON.parse`
does. -/
def lookupLast : List (String × JsonVal) → String → Option JsonVal
  | [], _ => none
  | (k', v) :: rest, k =>
    match lookupLast rest k with
    | some r => some r
    | none => if k' = k then some v else none

/-- Field access `data[k]`; on a non-object this is `undefined`. -/
def getField (j : JsonVal) (k : String) : Option JsonVal :=
  match j with
  | .obj fs => lookupLast fs k
  | _ => none

/-- JS truthiness of a possibly-`undefined` JSON value, the semantics of
the `!data[field]` test in `validateForecastData`. -/
def jsTruthy : Option JsonVal → Bool
  | none => false
  | some .null => false
  | some (.bool b) => b
  | some (.num q) => q != 0
  | some (.str s) => s != ""
  | some (.arr _) => true
  | some (.obj _) => true

/-- Model of `validateForecastData` (gemini-ai.js lines 135-152): the
two falsiness checks in the `requiredFields` loop, then the
array/non-empty check on `forecast_trend`, then the case-sensitive
membership check of `glut_risk` in `['Low', 'Medium', 'High']`. -/
def validateForecastData (data : JsonVal) : Except String Unit :=
  if !(jsTruthy (getField data "forecast_trend")) then
    .error "Missing required field: forecast_trend"
  else if !(jsTruthy (getField data "glut_risk")) then
    .error "Missing required field: glut_risk"
  else
    match getField data "forecast_trend" with
    | some (.arr l) =>
      if l.isEmpty then .error "forecast_trend must be a non-empty array"
      else
        match getField data "glut_risk" with
        | some (.str g) =>
          if ["Low", "Medium", "High"].contains g then .ok ()
          else .error "glut_risk must be Low, Medium, or High"
        | _ => .error "glut_risk must be Low, Medium, or High"
    | _ => .error "forecast_trend must be a non-empty array"

/-- Model of `String.prototype.trim`. -/
def jsTrim (s : List Char) : List Char :=
  ((s.dropWhile isJsWs).reverse.dropWhile isJsWs).reverse

/-- One global-regex replacement pass deleting every occurrence of a
literal token followed by a whitespace run (the `/tok\s*/g` replaces in
`cleanJsonResponse`); scans left to right, continuing after each match. -/
def stripTokenWs (tok : List Char) : Nat → List Char → List Char
  | 0, s => s
  | _, [] => []
  | fuel + 1, c :: rest =>
    if List.isPrefixOf tok (c :: rest) then
      stripTokenWs tok fuel (((c :: rest).drop tok.length).dropWhile isJsWs)
    else
      c :: stripTokenWs tok fuel rest

/-- Delete every occurrence of `tok` plus trailing whitespace from `s`. -/
def stripAll (tok : String) (s : List Char) : List Char :=
  stripTokenWs tok.data s.length s

/-- Index of the first occurrence of `c` (`String.prototype.indexOf`). -/
def firstIdxOf (c : Char) (s : List Char) : Option Nat :=
  s.findIdx? (· = c)

/-- Index of the last occurrence of `c` (`String.prototype.lastIndexOf`). -/
def lastIdxOf (c : Char) (s : List Char) : Option Nat :=
  match s.reverse.findIdx? (· = c) with
  | some i => some (s.length - 1 - i)
  | none => none

/-- Model of `cleanJsonResponse` (gemini-ai.js lines 117-133): trim,
delete all "```json" and "```" fence markers (each with trailing
whitespace), then, when a `{` appears strictly before a final `}`, keep
the inclusive slice between the first `{` and the last `}`. -/
def cleanJsonResponse (response : String) : String :=
  let cleaned := jsTrim response.data
  let cleaned := stripAll "```json" cleaned
  let cleaned := stripAll "```" cleaned
  match firstIdxOf '{' cleaned, lastIdxOf '}' cleaned with
  | some s, some l =>
    if l > s then String.mk ((cleaned.drop s).take (l + 1 - s))
    else String.mk cleaned
  | _, _ => String.mk cleaned

/-- The user input `inputData`: crop, district, season and the planned
quantity (absent when the caller omitted it, mirroring `undefined`). -/
structure ForecastRequest where
  crop : String
  district : String
  season : String
  quantity : Option ℚ
deriving DecidableEq

/-- The impure JS builtins consumed by the service, made explicit: the
values Math.random returns at each call site (indexed families in
`[0, 1)`), `Math.sin`, and the current date as an integer day number. -/
structure JsEnv where
  sin : ℚ → ℚ
  randDay : Nat → ℚ
  hmLat : Nat → ℚ
  hmLng : Nat → ℚ
  hmPrice : Nat → ℚ
  today : ℤ

/-- One horizon-bucketed trend (`{'7day': [...], '14day': [...],
'30day': [...]}`). -/
structure TrendSeries where
  day7 : List ℚ
  day14 : List ℚ
  day30 : List ℚ
deriving DecidableEq

/-- A date-valued field: built from day arithmetic on the mock path,
carried through verbatim as text on the AI path. -/
inductive DateVal where
  | fromDays (d : ℤ) : DateVal
  | fromText (s : String) : DateVal
deriving DecidableEq

/-- The `actionSummary` field: the mock template with the data it
interpolates, or the AI's `action_summary` text carried verbatim. -/
inductive SummaryVal where
  | mockTemplate (qty : ℤ) (crop : String) (markets : List String)
      (sellDate : ℤ) : SummaryVal
  | aiText (s : String) : SummaryVal
deriving DecidableEq

/-- The `recommendations` field: the mock path's array of five template
strings, or the AI path's structured block, each with the interpolated
data. -/
inductive RecsVal where
  | mockRecs (plantingDate sellingDate : ℤ) (qty : ℤ)
      (markets : List String) (risk : String) : RecsVal
  | aiRecs (crop district : String) (planting selling : String)
      (qty : ℚ) (markets : List String) (strategy : String)
      (risk : String) : RecsVal
deriving DecidableEq

/-- One heatmap entry pushed by `generateMarketHeatmap`. -/
structure MarketRecord where
  name : String
  lat : ℚ
  lng : ℚ
  demand : String
  price : ℚ
  risk : String
deriving DecidableEq

/-- The `metadata` block of the AI-path response. -/
structure MetaInfo where
  crop : String
  district : String
  season : String
  quantity : Option ℚ
  timestamp : ℤ
  source : String
deriving DecidableEq

/-- The canonical forecast object both generators return.  Fields that
only one path sets (`markets`, `metadata`) are `Option`s. -/
structure Forecast where
  success : Bool
  crop : String
  district : String
  season : String
  quantity : Option ℚ
  demandTrend : TrendSeries
  priceTrend : TrendSeries
  glutRisk : String
  optimalPlantingTime : DateVal
  optimalSellingTime : DateVal
  recommendedQuantity : ℚ
  suggestedMarkets : List String
  actionSummary : SummaryVal
  recommendations : RecsVal
  markets : Option (List MarketRecord)
  marketHeatmap : List MarketRecord
  metadata : Option MetaInfo
  timestamp : ℤ
  source : String
deriving DecidableEq

/-- JS `Math.round`: round half away from zero upwards (`floor (x + 1/2)`). -/
def jsRound (x : ℚ) : ℤ :=
  ⌊x + 1 / 2⌋

/-- Rounding to two decimals: `Math.round(x * 100) / 100`. -/
def round2 (x : ℚ) : ℚ :=
  (jsRound (x * 100) : ℚ) / 100

/-- JS `x || d` for a possibly-absent number: `undefined` and `0` both
fall back to the default. -/
def jsOrDefaultNum (q : Option ℚ) (d : ℚ) : ℚ :=
  match q with
  | none => d
  | some v => if v = 0 then d else v

/-- Sum of a list of rationals, as `Array.prototype.reduce((a,b)=>a+b, 0)`. -/
def qSum (l : List ℚ) : ℚ :=
  l.foldl (· + ·) 0

/-- The static `baseCoordinates` lookup in `generateMarketHeatmap`. -/
def baseCoordinates (market : String) : Option (ℚ × ℚ) :=
  if market = "KR Market" then some (12.9716, 77.5946)
  else if market = "Yeshwantpur Market" then some (13.0283, 77.5546)
  else if market = "Bangalore Central Market" then some (12.9716, 77.5946)
  else if market = "Mysore Market" then some (12.2958, 76.6394)
  else if market = "Hubli Market" then some (15.3647, 75.1240)
  else if market = "Mangalore Market" then some (12.9141, 74.8560)
  else none

/-- The record pushed for the market at position `idx`: looked-up
coordinates or a random offset from the default pair, demand always
"high", a random price, risk "low" only for the first entry. -/
def heatmapRecord (env : JsEnv) (idx : Nat) (market : String) : MarketRecord :=
  let coords :=
    match baseCoordinates market with
    | some c => c
    | none => (12.9716 + (env.hmLat idx - 0.5) * 2, 77.5946 + (env.hmLng idx - 0.5) * 2)
  { name := market
    lat := coords.1
    lng := coords.2
    demand := "high"
    price := 25 + env.hmPrice idx * 15
    risk := if idx = 0 then "low" else "medium" }

/-- The `forEach` loop of `generateMarketHeatmap`, carrying the index. -/
def heatmapFrom (env : JsEnv) : Nat → List String → List MarketRecord
  | _, [] => []
  | idx, m :: rest => heatmapRecord env idx m :: heatmapFrom env (idx + 1) rest

/-- Model of `generateMarketHeatmap` (gemini-ai.js lines 210-235). -/
def generateMarketHeatmap (env : JsEnv) (suggestedMarkets : List String) :
    List MarketRecord :=
  heatmapFrom env 0 suggestedMarkets

/-- Per-crop economic parameters from the `crops` table. -/
structure CropParams where
  basePrice : ℚ
  volatility : ℚ
  demandMultiplier : ℚ
deriving DecidableEq

/-- The `crops` lookup with its `|| crops['Rice']` fallback. -/
def cropsLookup (crop : String) : CropParams :=
  if crop = "Rice" then ⟨25, 0.1, 1.2⟩
  else if crop = "Wheat" then ⟨22, 0.08, 1.1⟩
  else if crop = "Maize" then ⟨18, 0.12, 1.0⟩
  else if crop = "Cotton" then ⟨45, 0.15, 0.9⟩
  else if crop = "Sugarcane" then ⟨3, 0.05, 1.3⟩
  else if crop = "Tomato" then ⟨35, 0.2, 1.1⟩
  else if crop = "Onion" then ⟨20, 0.18, 1.0⟩
  else if crop = "Potato" then ⟨15, 0.12, 1.1⟩
  else ⟨25, 0.1, 1.2⟩

/-- The `marketsByDistrict` lookup with its `|| marketsByDistrict['Karnataka']`
fallback. -/
def marketsByDistrict (district : String) : List String :=
  if district = "Karnataka" then
    ["KR Market", "Yeshwantpur Market", "Bangalore Central Market"]
  else if district = "Maharashtra" then
    ["Crawford Market", "Pune Market", "Nashik Market"]
  else if district = "Tamil Nadu" then
    ["Koyambedu Market", "Chennai Central Market", "Coimbatore Market"]
  else if district = "Punjab" then
    ["Ludhiana Market", "Amritsar Market", "Jalandhar Market"]
  else if district = "Haryana" then
    ["Gurgaon Market", "Faridabad Market", "Panipat Market"]
  else
    ["KR Market", "Yeshwantpur Market", "Bangalore Central Market"]

/-- One step of the 30-day generation loop: pushes the day's demand and
price onto the 30-day lists, onto the 14-day lists when `i < 14`, and
onto the 7-day lists when `i < 7`. -/
def trendStep (dp : Nat → ℚ × ℚ) (acc : TrendSeries × TrendSeries) (i : Nat) :
    TrendSeries × TrendSeries :=
  (⟨if i < 7 then acc.1.day7 ++ [(dp i).1] else acc.1.day7,
    if i < 14 then acc.1.day14 ++ [(dp i).1] else acc.1.day14,
    acc.1.day30 ++ [(dp i).1]⟩,
   ⟨if i < 7 then acc.2.day7 ++ [(dp i).2] else acc.2.day7,
    if i < 14 then acc.2.day14 ++ [(dp i).2] else acc.2.day14,
    acc.2.day30 ++ [(dp i).2]⟩)

/-- The `for (let i = 0; i < 30; i++)` loop building both trends. -/
def buildTrends (dp : Nat → ℚ × ℚ) : TrendSeries × TrendSeries :=
  (List.range 30).foldl (trendStep dp) (⟨[], [], []⟩, ⟨[], [], []⟩)

/-- The glut-risk classification of `generateMockForecast`: default
"low", overridden to "high" past 1.5x the average demand, else to
"medium" past 1.2x. -/
def classifyGlut (baseQuantity avgDemand : ℚ) : String :=
  if baseQuantity > avgDemand * 1.5 then "high"
  else if baseQuantity > avgDemand * 1.2 then "medium"
  else "low"

/-- The day-`i` demand/price pair of the mock generation loop:
`demand = Math.round(baseDemand * dayFactor * randomFactor)` and
`price = Math.round(basePrice * randomFactor * 100) / 100`, with
`dayFactor = 1 + sin(i / 7) * 0.1` and
`randomFactor = 1 + (Math.random() - 0.5) * volatility`. -/
def mockDayPair (env : JsEnv) (inputData : ForecastRequest) (i : Nat) : ℚ × ℚ :=
  let cropData := cropsLookup inputData.crop
  let baseQuantity := jsOrDefaultNum inputData.quantity 100
  let baseDemand : ℚ := (jsRound (baseQuantity * cropData.demandMultiplier) : ℚ)
  let dayFactor := 1 + env.sin ((i : ℚ) / 7) * 0.1
  let randomFactor := 1 + (env.randDay i - 0.5) * cropData.volatility
  ((jsRound (baseDemand * dayFactor * randomFactor) : ℚ),
   round2 (cropData.basePrice * randomFactor))

/-- Model of `generateMockForecast` (gemini-ai.js lines 237-334). -/
def generateMockForecast (env : JsEnv) (inputData : ForecastRequest) : Forecast :=
  let baseQuantity := jsOrDefaultNum inputData.quantity 100
  let trends := buildTrends (mockDayPair env inputData)
  let demandTrend := trends.1
  let priceTrend := trends.2
  let avgDemand := qSum demandTrend.day30 / 30
  let glutRisk := classifyGlut baseQuantity avgDemand
  let suggestedMarkets := marketsByDistrict inputData.district
  let plantingDate := env.today + 7
  let sellingDate := plantingDate + 90
  { success := true
    crop := inputData.crop
    district := inputData.district
    season := inputData.season
    quantity := some baseQuantity
    demandTrend := demandTrend
    priceTrend := priceTrend
    glutRisk := glutRisk
    optimalPlantingTime := .fromDays plantingDate
    optimalSellingTime := .fromDays sellingDate
    recommendedQuantity := (jsRound (avgDemand * 0.9) : ℚ)
    suggestedMarkets := suggestedMarkets
    actionSummary := .mockTemplate (jsRound (avgDemand * 0.9)) inputData.crop
      (suggestedMarkets.take 2) sellingDate
    recommendations := .mockRecs plantingDate sellingDate
      (jsRound (avgDemand * 0.9)) (suggestedMarkets.take 2) glutRisk
    markets := none
    marketHeatmap := generateMarketHeatmap env suggestedMarkets
    metadata := none
    timestamp := env.today
    source := "mock-data" }

/-- One entry of the AI schema's `forecast_trend` array. -/
structure AiTrendItem where
  expected_demand_kg : ℚ
  expected_price_per_kg : ℚ
deriving DecidableEq

/-- The validated AI-schema object, as `formatForecastResponse` reads it. -/
structure AiData where
  forecast_trend : List AiTrendItem
  glut_risk : String
  optimal_planting_time : String
  optimal_selling_time : String
  recommended_quantity_kg : ℚ
  suggested_markets : List String
  action_summary : String
deriving DecidableEq

/-- Numeric read of a JSON field, as the untyped JS field accesses do.
A non-numeric value is collapsed to 0 here; the claims only inspect
schema-conforming data, where this case does not arise. -/
def jsToNumQ : Option JsonVal → ℚ
  | some (.num q) => q
  | _ => 0

/-- String read of a JSON field. -/
def jsToStr : Option JsonVal → String
  | some (.str s) => s
  | _ => ""

/-- String-array read of a JSON field. -/
def jsToStrList : Option JsonVal → List String
  | some (.arr l) =>
    l.map fun v =>
      match v with
      | .str s => s
      | _ => ""
  | _ => []

/-- Read one `forecast_trend` item. -/
def decodeTrendItem (v : JsonVal) : AiTrendItem :=
  ⟨jsToNumQ (getField v "expected_demand_kg"),
   jsToNumQ (getField v "expected_price_per_kg")⟩

/-- Collect the fields `formatForecastResponse` reads off the parsed
object (the JS version performs these accesses inline). -/
def decodeAiData (j : JsonVal) : AiData :=
  { forecast_trend :=
      (match getField j "forecast_trend" with
       | some (.arr l) => l
       | _ => []).map decodeTrendItem
    glut_risk := jsToStr (getField j "glut_risk")
    optimal_planting_time := jsToStr (getField j "optimal_planting_time")
    optimal_selling_time := jsToStr (getField j "optimal_selling_time")
    recommended_quantity_kg := jsToNumQ (getField j "recommended_quantity_kg")
    suggested_markets := jsToStrList (getField j "suggested_markets")
    action_summary := jsToStr (getField j "action_summary") }

/-- Model of `formatForecastResponse` (gemini-ai.js lines 155-208):
reshape the AI object into the canonical forecast, slicing the trend
array into 7/14/30-day buckets with `slice(0, 7)` / `slice(0, 14)` /
the whole array. -/
def formatForecastResponse (env : JsEnv) (aiData : AiData)
    (inputData : ForecastRequest) : Forecast :=
  { success := true
    crop := inputData.crop
    district := inputData.district
    season := inputData.season
    quantity := inputData.quantity
    demandTrend :=
      ⟨(aiData.forecast_trend.take 7).map (·.expected_demand_kg),
       (aiData.forecast_trend.take 14).map (·.expected_demand_kg),
       aiData.forecast_trend.map (·.expected_demand_kg)⟩
    priceTrend :=
      ⟨(aiData.forecast_trend.take 7).map (·.expected_price_per_kg),
       (aiData.forecast_trend.take 14).map (·.expected_price_per_kg),
       aiData.forecast_trend.map (·.expected_price_per_kg)⟩
    glutRisk := aiData.glut_risk.toLower
    optimalPlantingTime := .fromText aiData.optimal_planting_time
    optimalSellingTime := .fromText aiData.optimal_selling_time
    recommendedQuantity := aiData.recommended_quantity_kg
    suggestedMarkets := aiData.suggested_markets
    actionSummary := .aiText aiData.action_summary
    recommendations := .aiRecs inputData.crop inputData.district
      aiData.optimal_planting_time aiData.optimal_selling_time
      aiData.recommended_quantity_kg aiData.suggested_markets
      aiData.action_summary aiData.glut_risk
    markets := some (generateMarketHeatmap env aiData.suggested_markets)
    marketHeatmap := generateMarketHeatmap env aiData.suggested_markets
    metadata := some
      ⟨inputData.crop, inputData.district, inputData.season,
       inputData.quantity, env.today, "gemini-ai"⟩
    timestamp := env.today
    source := "gemini-ai" }

/-- Failures of the AI transport layer: the 15-second timeout or any
SDK/network fault. -/
inductive AiError where
  | timeout : AiError
  | transport (msg : String) : AiError
deriving DecidableEq

/-- The typed failures of the AI path inside the orchestrator's `try`:
a transport-layer failure, `JSON.parse` failing on the cleaned text
(MalformedResponse), or `validateForecastData` throwing (ValidationError). -/
inductive PipeError where
  | ai (e : AiError) : PipeError
  | malformed (msg : String) : PipeError
  | validation (msg : String) : PipeError
deriving DecidableEq

/-- The body of the `try` block in `generateForecast` (gemini-ai.js
lines 39-107): obtain the raw streamed text, clean it, `JSON.parse` it,
validate it, and reshape it. -/
def runAiPath (env : JsEnv) (aiResult : Except AiError String)
    (inputData : ForecastRequest) : Except PipeError Forecast :=
  match aiResult with
  | .error e => .error (.ai e)
  | .ok raw =>
    match jsonParse (cleanJsonResponse raw) with
    | .error msg => .error (.malformed msg)
    | .ok json =>
      match validateForecastData json with
      | .error msg => .error (.validation msg)
      | .ok _ => .ok (formatForecastResponse env (decodeAiData json) inputData)

/-- Model of `generateForecast` (gemini-ai.js lines 31-115): when no
credential is configured (`isAvailable` false) use the mock generator
directly; otherwise run the AI path and catch any failure by returning
the mock forecast. -/
def generateForecast (env : JsEnv) (isAvailable : Bool)
    (aiResult : Except AiError String) (inputData : ForecastRequest) : Forecast :=
  if isAvailable then
    match runAiPath env aiResult inputData with
    | .ok forecast => forecast
    | .error _ => generateMockForecast env inputData
  else
    generateMockForecast env inputData

/-- Mean of a price list, `prices.reduce((a,b)=>a+b,0) / prices.length`. -/
def priceMean (prices : List ℚ) : ℚ :=
  qSum prices / prices.length

/-- Population variance as computed in `calculateVolatility`. -/
def priceVariance (prices : List ℚ) : ℚ :=
  prices.foldl (fun a b => a + (b - priceMean prices) ^ 2) 0 / prices.length

/-- The coefficient of variation `stdDev / mean`; the square root moves
the computation to `ℝ`.  Lean's division convention sets `x / 0 = 0`,
whereas the JS float division produces an infinity for a zero mean with
positive variance, so this ratio models the source only on series with
nonzero mean; the bucket characterization below therefore carries the
positive-mean hypothesis. -/
noncomputable def volatilityOf (prices : List ℚ) : ℝ :=
  Real.sqrt (priceVariance prices : ℝ) / (priceMean prices : ℝ)

/-- Model of `calculateVolatility` (gemini-ai.js lines 380-389). -/
noncomputable def calculateVolatility (prices : List ℚ) : String :=
  if volatilityOf prices > 0.15 then "high"
  else if volatilityOf prices > 0.08 then "medium"
  else "low"

/-- A syntactically-valid AI-schema object with an optional
`forecast_trend` array and an optional `glut_risk` string, the input
family the validation claims quantify over. -/
def mkAiJson (trend : Option (List JsonVal)) (glut : Option String) : JsonVal :=
  .obj
    ((match trend with
      | some l => [("forecast_trend", JsonVal.arr l)]
      | none => []) ++
     (match glut with
      | some g => [("glut_risk", JsonVal.str g)]
      | none => []))

/-- A concrete environment for witness instantiations. -/
def exEnv : JsEnv :=
  ⟨fun _ => 0, fun _ => 0, fun _ => 0, fun _ => 0, fun _ => 0, 0⟩

/-- A concrete request for witness instantiations. -/
def exReq : ForecastRequest :=
  ⟨"Rice", "Karnataka", "Kharif", some 100⟩

/-- A raw AI reply wrapped in leading prose and a markdown code fence. -/
def exFencedRaw : String :=
  "Here you go:\n```json\n\x7b\"forecast_trend\": [\x7b\"expected_demand_kg\": 120, \"expected_price_per_kg\": 26\x7d], \"glut_risk\": \"Low\"\x7d\n```"

/-- The JSON object enclosed in `exFencedRaw`. -/
def exFencedJson : JsonVal :=
  .obj
    [("forecast_trend",
      .arr [.obj [("expected_demand_kg", .num 120),
                  ("expected_price_per_kg", .num 26)]]),
     ("glut_risk", .str "Low")]

/-- A 30-day price series whose volatility ratio is exactly 0.15:
fifteen days at 115 and fifteen at 85 (mean 100, variance 225). -/
def exVolPrices : List ℚ :=
  [115, 115, 115, 115, 115, 115, 115, 115, 115, 115, 115, 115, 115, 115, 115,
   85, 85, 85, 85, 85, 85, 85, 85, 85, 85, 85, 85, 85, 85, 85]

/-- A concrete ten-element trend array for the truncation witness. -/
def exAiData : AiData :=
  { forecast_trend :=
      [⟨101, 21⟩, ⟨102, 22⟩, ⟨103, 23⟩, ⟨104, 24⟩, ⟨105, 25⟩,
       ⟨106, 26⟩, ⟨107, 27⟩, ⟨108, 28⟩, ⟨109, 29⟩, ⟨110, 30⟩]
    glut_risk := "Low"
    optimal_planting_time := "2026-10-18"
    optimal_selling_time := "2027-01-16"
    recommended_quantity_kg := 95
    suggested_markets := ["KR Market", "Mysore Market"]
    action_summary := "Sell early." }

theorem classifyGlut_mem (q m : ℚ) :
    classifyGlut q m = "low" ∨ classifyGlut q m = "medium" ∨
      classifyGlut q m = "high" := by
  unfold classifyGlut
  split_ifs <;> simp

theorem foldl_trendStep_range (dp : Nat → ℚ × ℚ) (n : ℕ) :
    (List.range n).foldl (trendStep dp) (⟨[], [], []⟩, ⟨[], [], []⟩) =
      (⟨(List.range (min n 7)).map (fun i => (dp i).1),
        (List.range (min n 14)).map (fun i => (dp i).1),
        (List.range n).map (fun i => (dp i).1)⟩,
       ⟨(List.range (min n 7)).map (fun i => (dp i).2),
        (List.range (min n 14)).map (fun i => (dp i).2),
        (List.range n).map (fun i => (dp i).2)⟩) := by
  induction n with
  | zero => rfl
  | succ n ih =>
    rw [List.range_succ n, List.foldl_append, ih, List.foldl_cons, List.foldl_nil]
    by_cases h7 : n < 7 <;> by_cases h14 : n < 14
    · have e1 : min n 7 = n := by omega
      have e2 : min (n + 1) 7 = n + 1 := by omega
      have e3 : min n 14 = n := by omega
      have e4 : min (n + 1) 14 = n + 1 := by omega
      simp [trendStep, h7, h14, e1, e2, e3, e4, List.range_succ]
    · omega
    · have e1 : min n 7 = 7 := by omega
      have e2 : min (n + 1) 7 = 7 := by omega
      have e3 : min n 14 = n := by omega
      have e4 : min (n + 1) 14 = n + 1 := by omega
      simp [trendStep, h7, h14, e1, e2, e3, e4, List.range_succ]
    · have e1 : min n 7 = 7 := by omega
      have e2 : min (n + 1) 7 = 7 := by omega
      have e3 : min n 14 = 14 := by omega
      have e4 : min (n + 1) 14 = 14 := by omega
      simp [trendStep, h7, h14, e1, e2, e3, e4]

theorem generateMockForecast_demandTrend (env : JsEnv) (input : ForecastRequest) :
    (generateMockForecast env input).demandTrend =
      ⟨(List.range 7).map (fun i => (mockDayPair env input i).1),
       (List.range 14).map (fun i => (mockDayPair env input i).1),
       (List.range 30).map (fun i => (mockDayPair env input i).1)⟩ := by
  show (buildTrends (mockDayPair env input)).1 = _
  rw [buildTrends, foldl_trendStep_range]
  norm_num

theorem generateMockForecast_priceTrend (env : JsEnv) (input : ForecastRequest) :
    (generateMockForecast env input).priceTrend =
      ⟨(List.range 7).map (fun i => (mockDayPair env input i).2),
       (List.range 14).map (fun i => (mockDayPair env input i).2),
       (List.range 30).map (fun i => (mockDayPair env input i).2)⟩ := by
  show (buildTrends (mockDayPair env input)).2 = _
  rw [buildTrends, foldl_trendStep_range]
  norm_num

/-- C2. In the mock generator's output, the 7-day series is the first 7
elements of the 14-day series and the 14-day series is the first 14
elements of the 30-day series, element-wise, for both the demand trend
and the price trend. -/
theorem mock_trend_prefix_invariant (env : JsEnv) (input : ForecastRequest) :
    (generateMockForecast env input).demandTrend.day7
        = (generateMockForecast env input).demandTrend.day14.take 7 ∧
      (generateMockForecast env input).demandTrend.day14
        = (generateMockForecast env input).demandTrend.day30.take 14 ∧
      (generateMockForecast env input).priceTrend.day7
        = (generateMockForecast env input).priceTrend.day14.take 7 ∧
      (generateMockForecast env input).priceTrend.day14
        = (generateMockForecast env input).priceTrend.day30.take 14 := by
  rw [generateMockForecast_demandTrend, generateMockForecast_priceTrend]
  refine ⟨?_, ?_, ?_, ?_⟩ <;>
    simp [← List.map_take, List.take_range]

/-- C3. The mock generator classifies glut risk against the mean of its
own generated 30-day demand series, high threshold (1.5x) first, then
medium (1.2x), else low; the result is always one of low, medium, high. -/
theorem mock_glutRisk_classification (env : JsEnv) (input : ForecastRequest) :
    (generateMockForecast env input).glutRisk
        = classifyGlut (jsOrDefaultNum input.quantity 100)
            (qSum (generateMockForecast env input).demandTrend.day30 / 30) ∧
      ((generateMockForecast env input).glutRisk = "low" ∨
        (generateMockForecast env input).glutRisk = "medium" ∨
        (generateMockForecast env input).glutRisk = "high") := by
  refine ⟨rfl, ?_⟩
  exact (rfl : (generateMockForecast env input).glutRisk = _) ▸
    classifyGlut_mem (jsOrDefaultNum input.quantity 100)
      (qSum (generateMockForecast env input).demandTrend.day30 / 30)

/-- C7. On the mock path the recommended quantity is exactly
`round(0.9 * mean(30-day demand))`, the mean taken over the generated
30-day demand series in the output. -/
theorem mock_recommendedQuantity (env : JsEnv) (input : ForecastRequest) :
    (generateMockForecast env input).recommendedQuantity
      = (jsRound (0.9 * (qSum (generateMockForecast env input).demandTrend.day30 / 30)) : ℚ) := by
  rw [mul_comm]
  exact rfl

/-- C9. The mock generator's optimal planting date is exactly today
plus 7 days, and its optimal selling date is the planting date plus 90
days, independent of the crop. -/
theorem mock_fixed_date_offsets (env : JsEnv) (input : ForecastRequest) :
    (generateMockForecast env input).optimalPlantingTime
        = DateVal.fromDays (env.today + 7) ∧
      (generateMockForecast env input).optimalSellingTime
        = DateVal.fromDays (env.today + 7 + 90) :=
  ⟨rfl, rfl⟩

/-- C4. For a valid AI-schema object whose trend array has fewer than
30 elements, the reshaped 30-day series is exactly those elements in
order, and the 14-day and 7-day series are its first `min n 14` and
`min n 7` elements, for both demand and price values. -/
theorem formatForecastResponse_truncates (env : JsEnv) (aiData : AiData)
    (input : ForecastRequest) (h : aiData.forecast_trend.length < 30) :
    (formatForecastResponse env aiData input).demandTrend.day30
        = aiData.forecast_trend.map (·.expected_demand_kg) ∧
      (formatForecastResponse env aiData input).demandTrend.day14
        = (aiData.forecast_trend.map (·.expected_demand_kg)).take 14 ∧
      (formatForecastResponse env aiData input).demandTrend.day7
        = (aiData.forecast_trend.map (·.expected_demand_kg)).take 7 ∧
      (formatForecastResponse env aiData input).priceTrend.day30
        = aiData.forecast_trend.map (·.expected_price_per_kg) ∧
      (formatForecastResponse env aiData input).priceTrend.day14
        = (aiData.forecast_trend.map (·.expected_price_per_kg)).take 14 ∧
      (formatForecastResponse env aiData input).priceTrend.day7
        = (aiData.forecast_trend.map (·.expected_price_per_kg)).take 7 := by
  refine ⟨rfl, ?_, ?_, rfl, ?_, ?_⟩ <;>
    exact List.map_take ..

theorem formatForecastResponse_truncates_witness :
    exAiData.forecast_trend.length < 30 ∧
      ((formatForecastResponse exEnv exAiData exReq).demandTrend.day30
          = exAiData.forecast_trend.map (·.expected_demand_kg) ∧
        (formatForecastResponse exEnv exAiData exReq).demandTrend.day14
          = (exAiData.forecast_trend.map (·.expected_demand_kg)).take 14 ∧
        (formatForecastResponse exEnv exAiData exReq).demandTrend.day7
          = (exAiData.forecast_trend.map (·.expected_demand_kg)).take 7 ∧
        (formatForecastResponse exEnv exAiData exReq).priceTrend.day30
          = exAiData.forecast_trend.map (·.expected_price_per_kg) ∧
        (formatForecastResponse exEnv exAiData exReq).priceTrend.day14
          = (exAiData.forecast_trend.map (·.expected_price_per_kg)).take 14 ∧
        (formatForecastResponse exEnv exAiData exReq).priceTrend.day7
          = (exAiData.forecast_trend.map (·.expected_price_per_kg)).take 7) :=
  ⟨by decide, formatForecastResponse_truncates exEnv exAiData exReq (by decide)⟩

/-- C5. Validation of a schema-shaped object fails exactly when the
trend-array field is absent, the trend array is empty, the glut-risk
field is absent, or the glut-risk value is not one of the three
case-sensitive labels "Low", "Medium", "High". -/
theorem validateForecastData_error_iff (t : Option (List JsonVal))
    (g : Option String) :
    (∃ msg, validateForecastData (mkAiJson t g) = .error msg) ↔
      (t = none ∨ t = some [] ∨ g = none ∨
        ∃ s, g = some s ∧ s ∉ (["Low", "Medium", "High"] : List String)) := by
  cases t with
  | none =>
    cases g with
    | none => simp [validateForecastData, mkAiJson, getField, lookupLast, jsTruthy]
    | some s => simp [validateForecastData, mkAiJson, getField, lookupLast, jsTruthy]
  | some l =>
    cases g with
    | none =>
      simp [validateForecastData, mkAiJson, getField, lookupLast, jsTruthy]
    | some s =>
      by_cases hs : s = ""
      · subst hs
        simp [validateForecastData, mkAiJson, getField, lookupLast, jsTruthy]
      · cases l with
        | nil =>
          simp [validateForecastData, mkAiJson, getField, lookupLast, jsTruthy, hs]
        | cons x xs =>
          by_cases hm : s ∈ (["Low", "Medium", "High"] : List String)
          · simp only [List.mem_cons, List.not_mem_nil, or_false] at hm
            rcases hm with rfl | rfl | rfl <;>
              simp [validateForecastData, mkAiJson, getField, lookupLast, jsTruthy]
          · simp only [List.mem_cons, List.not_mem_nil, or_false] at hm
            push_neg at hm
            simp [validateForecastData, mkAiJson, getField, lookupLast, jsTruthy,
              hs, hm.1, hm.2.1, hm.2.2]

/-- C6 counterexample. The cleaned text "[1, 2]" contains no brace
pair, yet the pipeline does not fail with MalformedResponse there: the
text still parses as JSON (a bare array), so the failure is the
validator's ValidationError instead. -/
theorem cleanJson_noBracePair_not_malformed :
    firstIdxOf '{' (stripAll "```" (stripAll "```json" (jsTrim ("[1, 2]").data))) = none ∧
      runAiPath exEnv (.ok "[1, 2]") exReq
        = .error (.validation "Missing required field: forecast_trend") :=
  ⟨rfl, rfl⟩

set_option maxRecDepth 40000 in
/-- C6 (amended). The pipeline parses exactly the output of
`cleanJsonResponse` (trim, strip code fences, brace-slice), and fails
with MalformedResponse precisely when that cleaned text does not parse
as JSON; fenced input with leading prose is recovered correctly, as the
concrete fenced example shows. -/
theorem runAiPath_malformed_iff (env : JsEnv) (input : ForecastRequest)
    (raw : String) :
    ((∃ m, runAiPath env (.ok raw) input = .error (PipeError.malformed m)) ↔
        (jsonParse (cleanJsonResponse raw)).isOk = false) ∧
      runAiPath env (.ok exFencedRaw) input
        = .ok (formatForecastResponse env (decodeAiData exFencedJson) input) := by
  constructor
  · cases hp : jsonParse (cleanJsonResponse raw) with
    | error msg => simp [runAiPath, hp, Except.isOk, Except.toBool]
    | ok v =>
      cases hv : validateForecastData v with
      | error m2 => simp [runAiPath, hp, hv, Except.isOk, Except.toBool]
      | ok u => cases u; simp [runAiPath, hp, hv, Except.isOk, Except.toBool]
  · rfl

/-- C1. The orchestrator never fails: whenever the AI path fails for
any reason (no credential configured, timeout, transport error,
malformed response, validation failure), it returns exactly the mock
generator's forecast, tagged source "mock-data". -/
theorem generateForecast_fallback (env : JsEnv) (input : ForecastRequest)
    (avail : Bool) (aiResult : Except AiError String)
    (h : avail = false ∨ ∃ e, runAiPath env aiResult input = .error e) :
    generateForecast env avail aiResult input = generateMockForecast env input ∧
      (generateForecast env avail aiResult input).source = "mock-data" := by
  have hsrc : (generateMockForecast env input).source = "mock-data" := rfl
  rcases h with rfl | ⟨e, he⟩
  · exact ⟨rfl, hsrc⟩
  · cases avail
    · exact ⟨rfl, hsrc⟩
    · have hm : generateForecast env true aiResult input
          = generateMockForecast env input := by
        simp [generateForecast, he]
      exact ⟨hm, hm ▸ hsrc⟩

theorem generateForecast_fallback_witness :
    (true = false ∨ ∃ e, runAiPath exEnv (.error .timeout) exReq = .error e) ∧
      (generateForecast exEnv true (.error .timeout) exReq
          = generateMockForecast exEnv exReq ∧
        (generateForecast exEnv true (.error .timeout) exReq).source
          = "mock-data") :=
  ⟨Or.inr ⟨.ai .timeout, rfl⟩,
   generateForecast_fallback exEnv exReq true (.error .timeout)
     (Or.inr ⟨.ai .timeout, rfl⟩)⟩

/-- C8 counterexample. A 30-day series of fifteen 115s and fifteen 85s
has volatility ratio exactly 0.15; the code classifies it "medium"
(its test is a strict `> 0.15`), not "high" as the claim's "≥ 0.15"
boundary would require. -/
theorem calculateVolatility_at_threshold :
    volatilityOf exVolPrices = 0.15 ∧
      calculateVolatility exVolPrices = "medium" ∧
      calculateVolatility exVolPrices ≠ "high" := by
  have hmean : priceMean exVolPrices = 100 := by
    norm_num [priceMean, qSum, exVolPrices, List.foldl_cons, List.foldl_nil]
  have hvar : priceVariance exVolPrices = 225 := by
    unfold priceVariance
    simp only [hmean]
    norm_num [exVolPrices, List.foldl_cons, List.foldl_nil]
  have hvol : volatilityOf exVolPrices = 0.15 := by
    unfold volatilityOf
    rw [hvar, hmean]
    have h225 : ((225 : ℚ) : ℝ) = (15 : ℝ) ^ 2 := by norm_num
    rw [h225, Real.sqrt_sq (by norm_num : (0 : ℝ) ≤ 15)]
    norm_num
  refine ⟨hvol, ?_, ?_⟩ <;> unfold calculateVolatility <;> rw [hvol] <;>
    norm_num <;> decide

/-- C8 (amended). For every price series with positive mean, the
volatility bucket is "low" exactly when the ratio stdDev/mean is at
most 0.08, "medium" exactly when it lies in (0.08, 0.15], and "high"
exactly when it is strictly greater than 0.15 (the code compares with
strict `>`, so the boundary points 0.08 and 0.15 fall in the lower
bucket; a zero-variance series has ratio 0 and so is "low"). -/
theorem calculateVolatility_bucket_iff (prices : List ℚ)
    (hpos : 0 < priceMean prices) :
    (calculateVolatility prices = "low" ↔ volatilityOf prices ≤ 0.08) ∧
      (calculateVolatility prices = "medium" ↔
        0.08 < volatilityOf prices ∧ volatilityOf prices ≤ 0.15) ∧
      (calculateVolatility prices = "high" ↔ 0.15 < volatilityOf prices) := by
  unfold calculateVolatility
  split_ifs with h1 h2
  · refine ⟨⟨fun hx => absurd hx (by decide), fun hx => by exfalso; linarith⟩,
      ⟨fun hx => absurd hx (by decide), fun hx => by exfalso; linarith [hx.2]⟩,
      ⟨fun _ => h1, fun _ => rfl⟩⟩
  · refine ⟨⟨fun hx => absurd hx (by decide), fun hx => by exfalso; linarith⟩,
      ⟨fun _ => ⟨h2, not_lt.mp h1⟩, fun _ => rfl⟩,
      ⟨fun hx => absurd hx (by decide), fun hx => absurd hx h1⟩⟩
  · refine ⟨⟨fun _ => not_lt.mp h2, fun _ => rfl⟩,
      ⟨fun hx => absurd hx (by decide), fun hx => by exfalso; linarith [hx.1]⟩,
      ⟨fun hx => absurd hx (by decide), fun hx => absurd hx h1⟩⟩

theorem calculateVolatility_bucket_iff_witness :
    (0 : ℚ) < priceMean exVolPrices ∧
      ((calculateVolatility exVolPrices = "low" ↔
          volatilityOf exVolPrices ≤ 0.08) ∧
        (calculateVolatility exVolPrices = "medium" ↔
          0.08 < volatilityOf exVolPrices ∧ volatilityOf exVolPrices ≤ 0.15) ∧
        (calculateVolatility exVolPrices = "high" ↔
          0.15 < volatilityOf exVolPrices)) :=
  ⟨by norm_num [priceMean, qSum, exVolPrices, List.foldl_cons, List.foldl_nil],
   calculateVolatility_bucket_iff exVolPrices
     (by norm_num [priceMean, qSum, exVolPrices, List.foldl_cons, List.foldl_nil])⟩

theorem heatmapFrom_length (env : JsEnv) (start : Nat) (ms : List String) :
    (heatmapFrom env start ms).length = ms.length := by
  induction ms generalizing start with
  | nil => rfl
  | cons m rest ih => simp [heatmapFrom, ih]

theorem heatmapFrom_getElem (env : JsEnv) (start : Nat) (ms : List String)
    (i : Nat) (m : String) (h : ms[i]? = some m) :
    (heatmapFrom env start ms)[i]? = some (heatmapRecord env (start + i) m) := by
  induction ms generalizing start i with
  | nil => simp at h
  | cons x rest ih =>
    cases i with
    | zero =>
      simp at h
      subst h
      simp [heatmapFrom]
    | succ j =>
      simp only [List.getElem?_cons_succ] at h
      have harith : start + 1 + j = start + (j + 1) := by omega
      have := ih (start + 1) j h
      rw [harith] at this
      simpa [heatmapFrom] using this

/-- C10. `generateMarketHeatmap` returns one record per suggested
market, in order: each record carries the input name, demand "high",
risk "low" for the first record and "medium" for the rest, fixed
coordinates for known market names and a randomized offset from the
default coordinate for unknown names, and a randomized price. -/
theorem generateMarketHeatmap_spec (env : JsEnv) (ms : List String) (i : Nat)
    (m : String) (h : ms[i]? = some m) :
    (generateMarketHeatmap env ms).length = ms.length ∧
      (generateMarketHeatmap env ms)[i]? = some
        { name := m
          lat :=
            match baseCoordinates m with
            | some c => c.1
            | none => 12.9716 + (env.hmLat i - 0.5) * 2
          lng :=
            match baseCoordinates m with
            | some c => c.2
            | none => 77.5946 + (env.hmLng i - 0.5) * 2
          demand := "high"
          price := 25 + env.hmPrice i * 15
          risk := if i = 0 then "low" else "medium" } := by
  refine ⟨heatmapFrom_length env 0 ms, ?_⟩
  rw [generateMarketHeatmap, heatmapFrom_getElem env 0 ms i m h]
  congr 1
  rw [show 0 + i = i from Nat.zero_add i]
  unfold heatmapRecord
  cases hb : baseCoordinates m <;> simp [hb]

theorem generateMarketHeatmap_spec_witness :
    (["KR Market", "Unknown Bazaar"] : List String)[1]? = some "Unknown Bazaar" ∧
      ((generateMarketHeatmap exEnv ["KR Market", "Unknown Bazaar"]).length
          = (["KR Market", "Unknown Bazaar"] : List String).length ∧
        (generateMarketHeatmap exEnv ["KR Market", "Unknown Bazaar"])[1]? = some
          { name := "Unknown Bazaar"
            lat :=
              match baseCoordinates "Unknown Bazaar" with
              | some c => c.1
              | none => 12.9716 + (exEnv.hmLat 1 - 0.5) * 2
            lng :=
              match baseCoordinates "Unknown Bazaar" with
              | some c => c.2
              | none => 77.5946 + (exEnv.hmLng 1 - 0.5) * 2
            demand := "high"
            price := 25 + exEnv.hmPrice 1 * 15
            risk := if 1 = 0 then "low" else "medium" }) :=
  ⟨rfl, generateMarketHeatmap_spec exEnv ["KR Market", "Unknown Bazaar"] 1
    "Unknown Bazaar" rfl⟩

end CropSense
